import Mathlib

/-
Verification of the streaming ingestion / classification / aggregation
pipeline of the buzzline repository (sentiment-consumer variant and
transaction-consumer variant) against its natural-language specification.

The Python source is shallowly embedded:
  * dictionaries coming off the wire are structures whose fields record
    whether a key is absent, present with value None, or present with a
    (coercible or uncoercible) value;
  * SQLite tables are Lean lists, an aggregate table with a TEXT primary
    key is a list of (Option String x Rational) pairs (none models SQL NULL);
  * `float(...)` / `int(...)` coercion failures and the surrounding
    try/except blocks become Option / explicit outcome records;
  * a whole-transaction failure is modelled by an explicit failure oracle:
    sqlite3 rolls back the open transaction when the `with` block exits on
    an exception, so a failed call leaves the store unchanged.
Python floats are modelled as rationals: every comparison and average in
the claims is over decimal literals, where rational arithmetic agrees.
-/

/-! ## Raw dictionary fields

A value sitting under a key of a decoded JSON dictionary, as seen by
`dict.get`.  For text-like fields Python applies no coercion, so the only
cases are: key absent, key present with value None, key present with a
string.  For numeric fields the code applies `float(...)` or `int(...)`,
which either succeeds (`val`) or raises (`bad`; this includes a present
None and an unparsable string). -/

inductive TVal where
  | absent : TVal
  | null : TVal
  | val : String → TVal
deriving DecidableEq, Repr

inductive NVal (α : Type) where
  | absent : NVal α
  | val : α → NVal α
  | bad : NVal α
deriving DecidableEq, Repr

/-- `d.get(key, default)` for a text field followed by no coercion:
an absent key yields the default, a present None stays None (SQL NULL),
a present string is passed through. -/
def tvalD : TVal → String → Option String
  | TVal.absent, d => some d
  | TVal.null, _ => none
  | TVal.val s, _ => some s

/-- `d.get(key)` for a text field: absent and None both yield None. -/
def tvalOpt : TVal → Option String
  | TVal.absent => none
  | TVal.null => none
  | TVal.val s => some s

/-- `float(d.get(key, default))` / `int(d.get(key, default))`:
absent yields the default, a coercible value its coercion, and an
uncoercible value raises (modelled as `none`). -/
def nvalF {α : Type} : NVal α → α → Option α
  | NVal.absent, d => some d
  | NVal.val a, _ => some a
  | NVal.bad, _ => none

/-! ## Transaction variant: records and the fraud classifier
(consumer_transactions_randleman.py) -/

/-- The processed transaction dictionary built by `process_message` in
the transaction consumer (and the row shape of the `transactions`,
`is_fraud` and `legit_transactions` tables). -/
structure ProcTx where
  name : Option String
  merchant : Option String
  amount : ℚ
  purchase_location : ℤ
  home_location : ℤ
  type : Option String
  timestamp : Option String
deriving DecidableEq, Repr

/-- `risky_merchants` from `is_fraudulent`. -/
def riskyMerchants : List String := ["Online Shopping", "Retail Store"]

/-- `is_fraudulent(transaction)`: the four if-return rules, in source
order.  `merchant in risky_merchants` with a None merchant is False, and
`card_type == "Debit"` with a None card type is False, which the
`Option String` fields capture. -/
def is_fraudulent (t : ProcTx) : Bool :=
  if t.amount > 900 then true
  else if t.purchase_location ≠ t.home_location ∧ t.amount > 500 then true
  else if (∃ m ∈ riskyMerchants, t.merchant = some m) ∧ t.amount > 700 then true
  else if t.type = some "Debit" ∧ t.amount > 800 then true
  else false

/-- The raw transaction dictionary before `process_message` coercion. -/
structure RawTx where
  name : TVal
  merchant : TVal
  amount : NVal ℚ
  purchase_location : NVal ℤ
  home_location : NVal ℤ
  type : TVal
  timestamp : TVal
deriving DecidableEq, Repr

/-- `process_message` of the transaction consumer: builds the processed
dictionary, catching any coercion exception and returning None. -/
def processTx (r : RawTx) : Option ProcTx :=
  (nvalF r.amount 0).bind fun a =>
    (nvalF r.purchase_location 0).bind fun p =>
      (nvalF r.home_location 0).bind fun h =>
        some ⟨tvalOpt r.name, tvalOpt r.merchant, a, p, h,
              tvalOpt r.type, tvalOpt r.timestamp⟩

/-! ## Transaction variant: store and ingestion loop
(sql_lite_config_randleman.py, consumer_transactions_randleman.py)

Each of `insert_message`, `insert_fraud`, `insert_legit_transaction`
opens its own connection, runs a single INSERT, commits, and catches any
exception internally (logging it and returning None).  The row inserted
from a processed dictionary re-applies `float`/`int` to already-coerced
values, which is the identity, so a row is the `ProcTx` itself. -/

structure TxDB where
  transactions : List ProcTx
  is_fraud : List ProcTx
  legit_transactions : List ProcTx
deriving DecidableEq, Repr

def emptyTxDB : TxDB := ⟨[], [], []⟩

/-- `insert_message` (transaction variant), success path. -/
def insertTx (t : ProcTx) (db : TxDB) : TxDB :=
  { db with transactions := db.transactions ++ [t] }

/-- `insert_fraud`, success path. -/
def insertFraud (t : ProcTx) (db : TxDB) : TxDB :=
  { db with is_fraud := db.is_fraud ++ [t] }

/-- `insert_legit_transaction`, success path. -/
def insertLegit (t : ProcTx) (db : TxDB) : TxDB :=
  { db with legit_transactions := db.legit_transactions ++ [t] }

/-- `insert_message` (transaction variant) as the caller sees it, with a
failure oracle for its single-statement transaction: on failure sqlite
rolls back, the exception is caught inside the function, and the store is
unchanged. -/
def insertTxCall (t : ProcTx) (db : TxDB) (fail : Bool) : TxDB :=
  if fail then db else insertTx t db

/-- `insert_fraud` with its failure oracle; failures are likewise caught
inside the function. -/
def insertFraudCall (t : ProcTx) (db : TxDB) (fail : Bool) : TxDB :=
  if fail then db else insertFraud t db

/-- `insert_legit_transaction` with its failure oracle. -/
def insertLegitCall (t : ProcTx) (db : TxDB) (fail : Bool) : TxDB :=
  if fail then db else insertLegit t db

/-- The per-record write path of the transaction consumer loop: first the
partition insert (`insert_fraud` or `insert_legit_transaction`, chosen by
`is_fraudulent`), then — in a separate connection and transaction —
`insert_message` into the raw `transactions` table.  `failPart` and
`failRaw` say whether each of the two independent transactions fails. -/
def perRecordWrite (t : ProcTx) (db : TxDB) (failPart failRaw : Bool) : TxDB :=
  let db1 := if is_fraudulent t then insertFraudCall t db failPart
             else insertLegitCall t db failPart
  insertTxCall t db1 failRaw

/-- One iteration plus the rest of the transaction consumer loop
(`consume_messages_from_kafka`, step 4).  `process_message` returns None
on a coercion failure; the loop then calls `is_fraudulent(None)`, which
raises `AttributeError`; the surrounding handler logs and re-raises, so
the loop terminates (`Except.error` carries the store at termination).
On the success path both the partition insert and the raw insert run
(the processed dictionary is non-empty, hence truthy). -/
def consumeTx : List RawTx → TxDB → Except TxDB TxDB
  | [], db => Except.ok db
  | r :: rest, db =>
    match processTx r with
    | none => Except.error db
    | some t =>
      let db1 := if is_fraudulent t then insertFraud t db else insertLegit t db
      consumeTx rest (insertTx t db1)

/-- Did the loop terminate with an exception? -/
def isErr {α β : Type} : Except α β → Bool
  | Except.error _ => true
  | Except.ok _ => false

/-- The store state when the loop stopped, in either case. -/
def txResultDB : Except TxDB TxDB → TxDB
  | Except.ok d => d
  | Except.error d => d

/-! ## Transaction variant: startup exit codes
(main and consume_messages_from_kafka in consumer_transactions_randleman.py)

`main` runs: STEP 1 read env (exit 1 on failure); STEP 2 unlink a prior
store file if it exists (exit 2 on failure); STEP 3 `init_db` inside
try/except-exit(3) — but `init_db` catches every exception internally, so
that handler can never fire; STEP 4 start consuming, which verifies
services (exit 11), creates the consumer (exit 11) and checks the topic
(exit 13).  The consume stage is modelled sequentially, as written in
`consume_messages_from_kafka`. -/

inductive Outcome where
  | exited : Nat → Outcome
  | running : Outcome
deriving DecidableEq, Repr

structure StartupEnv where
  envOk : Bool
  priorDbExists : Bool
  unlinkOk : Bool
  schemaOk : Bool
  verifyOk : Bool
  consumerOk : Bool
  topicOk : Bool
deriving DecidableEq, Repr

def mainStartup (e : StartupEnv) : Outcome :=
  if !e.envOk then Outcome.exited 1
  else if e.priorDbExists && !e.unlinkOk then Outcome.exited 2
  else
    -- STEP 3: init_db swallows a schema-creation failure (it logs and
    -- returns), so regardless of e.schemaOk no exception reaches the
    -- `except: sys.exit(3)` handler and startup proceeds.
    if !e.verifyOk then Outcome.exited 11
    else if !e.consumerOk then Outcome.exited 11
    else if !e.topicOk then Outcome.exited 13
    else Outcome.running

/-! ## Sentiment variant: store
(db_sqlite_josiah_randleman.py) -/

/-- A row of `sentiment_messages`.  TEXT columns may hold SQL NULL
(modelled as `none`); `sentiment` is always bound to a float by
`float(message.get("sentiment", 0.0))`. -/
structure SentRow where
  category : Option String
  author : Option String
  sentiment : ℚ
  timestamp : Option String
deriving DecidableEq, Repr

/-- A row of `streamed_messages` (sans the autoincrement id). -/
structure StreamedRow where
  message : Option String
  author : Option String
  timestamp : Option String
  category : Option String
  sentiment : ℚ
  keyword_mentioned : Option String
  message_length : ℤ
deriving DecidableEq, Repr

/-- `category_sentiment` / `author_sentiment`: TEXT primary key (NULL
keys are allowed and never conflict with each other) and a REAL value. -/
abbrev AggTable := List (Option String × ℚ)

structure FullDB where
  streamed_messages : List StreamedRow
  sentiment_messages : List SentRow
  category_sentiment : AggTable
  author_sentiment : AggTable
deriving DecidableEq, Repr

def emptyDB : FullDB := ⟨[], [], [], []⟩

/-- `SELECT avg_sentiment FROM <agg> WHERE key = c` for a real string
key: the first row whose key equals `some c`.  A NULL key never equals a
string in SQL, so `none` rows never match. -/
def lookupAgg : AggTable → String → Option ℚ
  | [], _ => none
  | p :: rest, c => if p.1 = some c then some p.2 else lookupAgg rest c

/-- Does the aggregate table already hold a row with key `c`?  (The
`ON CONFLICT` test of the upsert; NULL primary keys never conflict.) -/
def hasKey : AggTable → String → Bool
  | [], _ => false
  | p :: rest, c => if p.1 = some c then true else hasKey rest c

/-- `SELECT AVG(sentiment) FROM sentiment_messages WHERE <k> = c`:
the arithmetic mean of the sentiments of the rows whose key column
(selected by `k`) equals the string `c`. -/
def avgBy (k : SentRow → Option String) (c : String) (hist : List SentRow) : ℚ :=
  let xs := (hist.filter (fun r => decide (k r = some c))).map SentRow.sentiment
  xs.sum / (xs.length : ℚ)

/-- `INSERT INTO <agg> (key, avg_sentiment) VALUES (key, s)
ON CONFLICT(key) DO UPDATE SET avg_sentiment = (SELECT AVG ...)`.
A NULL key never conflicts, so it is appended as a fresh row; a string
key either updates the (unique, by primary key) existing row to the
recomputed average over `hist`, or is inserted carrying the raw
sentiment `s`. -/
def upsertAvg (k : SentRow → Option String) (key : Option String) (s : ℚ)
    (hist : List SentRow) (l : AggTable) : AggTable :=
  match key with
  | none => l ++ [(none, s)]
  | some c =>
    if hasKey l c then
      l.map (fun p => if p.1 = some c then (p.1, avgBy k c hist) else p)
    else
      l ++ [(some c, s)]

/-- The field extraction at the top of `insert_message`
(db_sqlite_josiah_randleman.py lines 126-132): `dict.get` with defaults
for absent keys, `float`/`int` on the numeric fields.  `none` means the
coercion raised, aborting the call before any SQL runs. -/
structure Extracted where
  category : Option String
  author : Option String
  sentiment : ℚ
  timestamp : Option String
  message : Option String
  keyword_mentioned : Option String
  message_length : ℤ
deriving DecidableEq, Repr

/-- The argument dictionary of `insert_message`: any key may be absent,
None, or carry a value. -/
structure MsgDict where
  message : TVal
  author : TVal
  timestamp : TVal
  category : TVal
  sentiment : NVal ℚ
  keyword_mentioned : TVal
  message_length : NVal ℤ
deriving DecidableEq, Repr

def extract (m : MsgDict) : Option Extracted :=
  (nvalF m.sentiment 0).bind fun s =>
    (nvalF m.message_length 0).bind fun n =>
      some ⟨tvalD m.category "unknown", tvalD m.author "anonymous", s,
            tvalD m.timestamp "unknown", tvalD m.message "",
            tvalD m.keyword_mentioned "", n⟩

/-- The committed effect of a successful `insert_message` (sentiment
variant): within one transaction, append to `streamed_messages`, append
to `sentiment_messages`, then upsert `category_sentiment` and
`author_sentiment`; both AVG subselects run after the history append and
therefore see the just-inserted row.  If field extraction raises, the
call is a no-op on the store. -/
def insertMessagePure (m : MsgDict) (db : FullDB) : FullDB :=
  match extract m with
  | none => db
  | some e =>
    let row : SentRow := ⟨e.category, e.author, e.sentiment, e.timestamp⟩
    let hist2 := db.sentiment_messages ++ [row]
    { streamed_messages := db.streamed_messages ++
        [⟨e.message, e.author, e.timestamp, e.category, e.sentiment,
          e.keyword_mentioned, e.message_length⟩]
      sentiment_messages := hist2
      category_sentiment :=
        upsertAvg SentRow.category e.category e.sentiment hist2 db.category_sentiment
      author_sentiment :=
        upsertAvg SentRow.author e.author e.sentiment hist2 db.author_sentiment }

/-- A sequence of `insert_message` calls starting from a given store. -/
def insertAll (ms : List MsgDict) (db : FullDB) : FullDB :=
  ms.foldl (fun d m => insertMessagePure m d) db

/-- A step of the write path at which an injected failure occurs. -/
inductive FailAt where
  | rawInsert : FailAt
  | histInsert : FailAt
  | catUpsert : FailAt
  | authUpsert : FailAt
deriving DecidableEq, Repr

/-- What a call to `insert_message` (sentiment variant) produces, as its
caller can observe it: the resulting store, the exception propagated to
the caller (`ret`; the source wraps the whole body in try/except, so this
is always `none`), and whether the error branch logged. -/
structure CallResult where
  db : FullDB
  ret : Option String
  loggedError : Bool
deriving DecidableEq, Repr

/-- `insert_message` (sentiment variant) with an injected failure at one
of the four SQL statements.  All four run inside one open transaction of
a single `with sqlite3.connect(...)` block whose exit on an exception
rolls the transaction back, so a failure at any step leaves the store
exactly as before the call; the exception is then caught and logged
inside the function, and the caller receives None either way. -/
def insert_message_call (m : MsgDict) (db : FullDB) (fail : Option FailAt) :
    CallResult :=
  match extract m with
  | none => ⟨db, none, true⟩
  | some _ =>
    match fail with
    | some _ => ⟨db, none, true⟩
    | none => ⟨insertMessagePure m db, none, false⟩

/-! ## Sentiment variant: decode and ingestion loop
(consumer_josiah_randleman.py) -/

/-- The raw social-message dictionary off the wire. -/
structure RawMsg where
  message : TVal
  author : TVal
  timestamp : TVal
  category : TVal
  sentiment : NVal ℚ
  keyword_mentioned : TVal
  message_length : NVal ℤ
deriving DecidableEq, Repr

/-- The processed dictionary built by `process_message` of the sentiment
consumer: plain `get` (no default) on the five text fields, defaulted
`float`/`int` on the two numeric ones. -/
structure ProcMsg where
  message : Option String
  author : Option String
  timestamp : Option String
  category : Option String
  keyword_mentioned : Option String
  sentiment : ℚ
  message_length : ℤ
deriving DecidableEq, Repr

/-- `process_message` (sentiment consumer), up to the `insert_message`
call: a coercion failure is caught by the function's own try/except, the
error is logged and nothing is inserted (the record is dropped). -/
def processMsg (r : RawMsg) : Option ProcMsg :=
  (nvalF r.sentiment 0).bind fun s =>
    (nvalF r.message_length 0).bind fun n =>
      some ⟨tvalOpt r.message, tvalOpt r.author, tvalOpt r.timestamp,
            tvalOpt r.category, tvalOpt r.keyword_mentioned, s, n⟩

/-- The processed dictionary handed to `insert_message`: every key is
present (a missing input field became the value None), so the `dict.get`
defaults inside `insert_message` never apply to it. -/
def procToDict (p : ProcMsg) : MsgDict :=
  { message := (p.message.map TVal.val).getD TVal.null
    author := (p.author.map TVal.val).getD TVal.null
    timestamp := (p.timestamp.map TVal.val).getD TVal.null
    category := (p.category.map TVal.val).getD TVal.null
    sentiment := NVal.val p.sentiment
    keyword_mentioned := (p.keyword_mentioned.map TVal.val).getD TVal.null
    message_length := NVal.val p.message_length }

/-- One item of the sentiment consumer loop: `process_message` catches
every exception of its body (including the whole insert), so one item can
never break the loop; a dropped record leaves the store unchanged. -/
def sentStep (db : FullDB) (r : RawMsg) : FullDB :=
  match processMsg r with
  | none => db
  | some p => insertMessagePure (procToDict p) db

/-- The sentiment consumer loop over a finite prefix of the stream. -/
def sentLoop (rs : List RawMsg) (db : FullDB) : FullDB :=
  rs.foldl sentStep db

/-! ## init_db of both variants, at the schema level

`none` means the table does not exist in the database file.  The
sentiment variant (db_sqlite_josiah_randleman.py) DROPs only
`streamed_messages` and then runs CREATE TABLE IF NOT EXISTS for all
four tables, so the other three keep their rows when they already exist.
The transaction variant (sql_lite_config_randleman.py) DROPs all three of
its tables before recreating them. -/

structure SentStore where
  streamed_messages : Option (List StreamedRow)
  sentiment_messages : Option (List SentRow)
  category_sentiment : Option AggTable
  author_sentiment : Option AggTable
deriving DecidableEq, Repr

/-- `init_db` of db_sqlite_josiah_randleman.py, success path. -/
def init_db_sent (s : SentStore) : SentStore :=
  { streamed_messages := some []
    sentiment_messages := some (s.sentiment_messages.getD [])
    category_sentiment := some (s.category_sentiment.getD [])
    author_sentiment := some (s.author_sentiment.getD []) }

structure TxStore where
  transactions : Option (List ProcTx)
  is_fraud : Option (List ProcTx)
  legit_transactions : Option (List ProcTx)
deriving DecidableEq, Repr

/-- `init_db` of sql_lite_config_randleman.py, success path: all three
tables dropped and recreated empty. -/
def init_db_tx (_s : TxStore) : TxStore := ⟨some [], some [], some []⟩

/-! ## Concrete records used by the end-to-end scenarios -/

/-- Scenario 2: `{amount: 950, merchant: "Grocery", purchase_location: 1,
home_location: 1, type: "Credit"}`. -/
def tx950 : ProcTx :=
  ⟨some "A", some "Grocery", 950, 1, 1, some "Credit", some "t"⟩

/-- Scenario 3: amount 600 at a Restaurant, same location, Credit. -/
def tx600 : ProcTx :=
  ⟨some "B", some "Restaurant", 600, 1, 1, some "Credit", some "t"⟩

/-- Scenario 4: amount 750 at a Retail Store, same location, Credit. -/
def tx750 : ProcTx :=
  ⟨some "C", some "Retail Store", 750, 1, 1, some "Credit", some "t"⟩

/-- A social message with category "humor" and a given sentiment, all
fields present. -/
def humorMsg (q : ℚ) : MsgDict :=
  { message := TVal.val "m"
    author := TVal.val "Charlie"
    timestamp := TVal.val "2025-01-29 14:35:20"
    category := TVal.val "humor"
    sentiment := NVal.val q
    keyword_mentioned := TVal.val "meme"
    message_length := NVal.val 42 }

/-! ## Invariants and concrete inputs used by the theorems -/

/-- Key coverage: every key (under the key column selector `k`) that
occurs in the message history already has a row in the aggregate table.
`insert_message` maintains this because each history append is followed,
in the same transaction, by an upsert of that key. -/
def Covers (k : SentRow → Option String) (hist : List SentRow) (agg : AggTable) : Prop :=
  ∀ c : String, (∃ r ∈ hist, k r = some c) → hasKey agg c = true

/-- Both aggregate tables cover the history of `sentiment_messages`. -/
def DBCovers (db : FullDB) : Prop :=
  Covers SentRow.category db.sentiment_messages db.category_sentiment ∧
  Covers SentRow.author db.sentiment_messages db.author_sentiment

/-- A payload with every field missing. -/
def rawAllAbsent : RawMsg :=
  ⟨TVal.absent, TVal.absent, TVal.absent, TVal.absent, NVal.absent,
   TVal.absent, NVal.absent⟩

/-- A payload whose sentiment field cannot be coerced to float. -/
def rawBadSent : RawMsg :=
  ⟨TVal.val "m", TVal.val "Charlie", TVal.val "t", TVal.val "humor",
   NVal.bad, TVal.val "meme", NVal.val 42⟩

/-- A well-formed legitimate transaction payload. -/
def rawTxGood : RawTx :=
  ⟨TVal.val "A", TVal.val "Grocery", NVal.val 100, NVal.val 1, NVal.val 1,
   TVal.val "Credit", TVal.val "t1"⟩

/-- A transaction payload whose amount cannot be coerced to float. -/
def rawTxBad : RawTx :=
  ⟨TVal.val "B", TVal.val "Grocery", NVal.bad, NVal.val 1, NVal.val 1,
   TVal.val "Credit", TVal.val "t2"⟩

/-- A second well-formed transaction payload, after the malformed one. -/
def rawTxGood2 : RawTx :=
  ⟨TVal.val "C", TVal.val "Grocery", NVal.val 200, NVal.val 1, NVal.val 1,
   TVal.val "Credit", TVal.val "t3"⟩

/-- A sentiment store holding one leftover row in `sentiment_messages`
(and matching aggregates), as left behind by a previous run. -/
def staleSentStore : SentStore :=
  { streamed_messages := some []
    sentiment_messages := some [⟨some "humor", some "Charlie", 1, some "t"⟩]
    category_sentiment := some [(some "humor", 1)]
    author_sentiment := some [(some "Charlie", 1)] }

/-- Startup conditions where only schema creation fails. -/
def schemaFailEnv : StartupEnv :=
  ⟨true, false, true, false, true, true, true⟩

/-- Boundary transactions: each has exactly one rule armed apart from the
amount, with the amount sitting exactly on that rule's threshold. -/
def txBound900 : ProcTx := ⟨some "D", some "Grocery", 900, 1, 1, some "Credit", some "t"⟩

def txBound700 : ProcTx := ⟨some "E", some "Retail Store", 700, 1, 1, some "Credit", some "t"⟩

def txBound800 : ProcTx := ⟨some "F", some "Grocery", 800, 1, 1, some "Debit", some "t"⟩

/-- Amount exactly 500 with every other rule condition armed. -/
def txBound500 : ProcTx := ⟨some "G", some "Retail Store", 500, 2, 1, some "Debit", some "t"⟩

/-! ## Helper lemmas -/

theorem is_fraudulent_iff (t : ProcTx) :
    is_fraudulent t = true ↔
      (t.amount > 900 ∨
       (t.purchase_location ≠ t.home_location ∧ t.amount > 500) ∨
       ((t.merchant = some "Online Shopping" ∨ t.merchant = some "Retail Store") ∧
         t.amount > 700) ∨
       (t.type = some "Debit" ∧ t.amount > 800)) := by
  unfold is_fraudulent riskyMerchants
  split_ifs with h1 h2 h3 h4 <;> simp_all

theorem lookupAgg_update (c : String) (v : ℚ) :
    ∀ l : AggTable, hasKey l c = true →
      lookupAgg (l.map (fun p => if p.1 = some c then (p.1, v) else p)) c = some v := by
  intro l
  induction l with
  | nil => intro h; simp [hasKey] at h
  | cons x xs ih =>
    intro h
    by_cases hx : x.1 = some c
    · simp [lookupAgg, hx]
    · simp only [hasKey, if_neg hx] at h
      simp [lookupAgg, hx, ih h]

theorem lookupAgg_append (c : String) (m : AggTable) :
    ∀ l : AggTable, hasKey l c = false →
      lookupAgg (l ++ m) c = lookupAgg m c := by
  intro l
  induction l with
  | nil => intro _; simp
  | cons x xs ih =>
    intro h
    by_cases hx : x.1 = some c
    · simp [hasKey, hx] at h
    · simp only [hasKey, if_neg hx] at h
      simp [lookupAgg, hx, ih h]

theorem hasKey_map_update (c c2 : String) (v : ℚ) :
    ∀ l : AggTable,
      hasKey (l.map (fun p => if p.1 = some c then (p.1, v) else p)) c2 = hasKey l c2 := by
  intro l
  induction l with
  | nil => simp [hasKey]
  | cons x xs ih =>
    by_cases hx : x.1 = some c
    · simp [hasKey, hx, ih]
    · simp [hasKey, hx, ih]

theorem hasKey_append (c : String) (l m : AggTable) :
    hasKey (l ++ m) c = (hasKey l c || hasKey m c) := by
  induction l with
  | nil => simp [hasKey]
  | cons x xs ih =>
    by_cases hx : x.1 = some c
    · simp [hasKey, hx]
    · simp [hasKey, hx, ih]

theorem hasKey_upsert (k : SentRow → Option String) (key : Option String)
    (s : ℚ) (hist : List SentRow) (l : AggTable) (c : String)
    (h : hasKey l c = true) :
    hasKey (upsertAvg k key s hist l) c = true := by
  unfold upsertAvg
  cases key with
  | none => simp [hasKey_append, h]
  | some c0 =>
    by_cases hk : hasKey l c0 = true
    · simp [hk, hasKey_map_update, h]
    · simp only [hk]
      simp [hasKey_append, h]

theorem hasKey_upsert_self (k : SentRow → Option String) (c : String)
    (s : ℚ) (hist : List SentRow) (l : AggTable) :
    hasKey (upsertAvg k (some c) s hist l) c = true := by
  unfold upsertAvg
  by_cases hk : hasKey l c = true
  · simp [hk, hasKey_map_update]
  · simp only [hk]
    simp [hasKey_append, hasKey, hk]

theorem covers_insert (k : SentRow → Option String) (row : SentRow) (s : ℚ)
    (hist2 hist : List SentRow) (agg : AggTable) (hcov : Covers k hist agg) :
    Covers k (hist ++ [row]) (upsertAvg k (k row) s hist2 agg) := by
  intro c hc
  obtain ⟨r, hr, hrk⟩ := hc
  rcases List.mem_append.mp hr with h | h
  · exact hasKey_upsert k (k row) s hist2 agg c (hcov c ⟨r, h, hrk⟩)
  · have hreq : r = row := by simpa using h
    subst hreq
    rw [hrk]
    exact hasKey_upsert_self k c s hist2 agg

theorem avgBy_append_single (k : SentRow → Option String) (c : String)
    (row : SentRow) (hist : List SentRow) (hrow : k row = some c)
    (hnone : ∀ r ∈ hist, k r ≠ some c) :
    avgBy k c (hist ++ [row]) = row.sentiment := by
  unfold avgBy
  have hfil : hist.filter (fun r => decide (k r = some c)) = [] :=
    List.filter_eq_nil_iff.mpr (by intro a ha; simpa using hnone a ha)
  rw [List.filter_append, hfil]
  simp [List.filter, hrow]

theorem upsert_lookup_avg (k : SentRow → Option String) (c : String)
    (row : SentRow) (hist : List SentRow) (agg : AggTable)
    (hcov : Covers k hist agg) (hrow : k row = some c) :
    lookupAgg (upsertAvg k (some c) row.sentiment (hist ++ [row]) agg) c
      = some (avgBy k c (hist ++ [row])) := by
  unfold upsertAvg
  dsimp only
  by_cases hk : hasKey agg c = true
  · rw [if_pos hk, lookupAgg_update c _ agg hk]
  · have hk2 : hasKey agg c = false := by simpa using hk
    rw [if_neg hk, lookupAgg_append c _ agg hk2]
    have hnone : ∀ r ∈ hist, k r ≠ some c := by
      intro r hr hrc
      exact hk (hcov c ⟨r, hr, hrc⟩)
    rw [avgBy_append_single k c row hist hrow hnone]
    simp [lookupAgg]

theorem dbcovers_empty : DBCovers emptyDB := by
  constructor <;> · intro c hc; simp [emptyDB] at hc

theorem dbcovers_insert (m : MsgDict) (db : FullDB) (h : DBCovers db) :
    DBCovers (insertMessagePure m db) := by
  unfold insertMessagePure
  cases he : extract m with
  | none => exact h
  | some e =>
    constructor
    · exact covers_insert SentRow.category ⟨e.category, e.author, e.sentiment, e.timestamp⟩
        e.sentiment _ _ _ h.1
    · exact covers_insert SentRow.author ⟨e.category, e.author, e.sentiment, e.timestamp⟩
        e.sentiment _ _ _ h.2

theorem dbcovers_insertAll (ms : List MsgDict) :
    ∀ db : FullDB, DBCovers db → DBCovers (insertAll ms db) := by
  induction ms with
  | nil => intro db h; exact h
  | cons m rest ih =>
    intro db h
    exact ih (insertMessagePure m db) (dbcovers_insert m db h)

theorem insert_message_avg (m : MsgDict) (db : FullDB) (e : Extracted)
    (c a : String) (hdb : DBCovers db) (he : extract m = some e)
    (hc : e.category = some c) (ha : e.author = some a) :
    lookupAgg (insertMessagePure m db).category_sentiment c
      = some (avgBy SentRow.category c (insertMessagePure m db).sentiment_messages) ∧
    lookupAgg (insertMessagePure m db).author_sentiment a
      = some (avgBy SentRow.author a (insertMessagePure m db).sentiment_messages) := by
  simp only [insertMessagePure, he]
  constructor
  · rw [hc]
    exact upsert_lookup_avg SentRow.category c
      ⟨some c, e.author, e.sentiment, e.timestamp⟩ db.sentiment_messages
      db.category_sentiment hdb.1 rfl
  · rw [ha]
    exact upsert_lookup_avg SentRow.author a
      ⟨e.category, some a, e.sentiment, e.timestamp⟩ db.sentiment_messages
      db.author_sentiment hdb.2 rfl

/-- C1: after every successful `insert_message` call on a store reachable
from empty, the stored `avg_sentiment` for the record's category equals
the arithmetic mean of the sentiments of all `sentiment_messages` rows
with that category (including the just-inserted one), and likewise for
the record's author; and inserting three records with category "humor"
and sentiments 0.8, 0.6, 1.0 into an initially empty store leaves
`category_sentiment["humor"]` equal to 0.8. -/
theorem C1_mean_invariant :
    (∀ (prior : List MsgDict) (m : MsgDict) (e : Extracted) (c a : String),
        extract m = some e → e.category = some c → e.author = some a →
        (lookupAgg (insertMessagePure m (insertAll prior emptyDB)).category_sentiment c
          = some (avgBy SentRow.category c
              (insertMessagePure m (insertAll prior emptyDB)).sentiment_messages) ∧
         lookupAgg (insertMessagePure m (insertAll prior emptyDB)).author_sentiment a
          = some (avgBy SentRow.author a
              (insertMessagePure m (insertAll prior emptyDB)).sentiment_messages))) ∧
    lookupAgg (insertAll [humorMsg (4/5), humorMsg (3/5), humorMsg 1] emptyDB).category_sentiment
      "humor" = some (4/5) := by
  constructor
  · intro prior m e c a he hc ha
    exact insert_message_avg m (insertAll prior emptyDB) e c a
      (dbcovers_insertAll prior emptyDB dbcovers_empty) he hc ha
  · simp only [insertAll, insertMessagePure, extract, humorMsg, nvalF, tvalD, upsertAvg,
      hasKey, avgBy, lookupAgg, emptyDB, List.foldl, Option.bind, List.filter, List.map,
      List.sum, List.length]
    norm_num

/-- Witness for C1 at a concrete record: the first "humor" insert into
the empty store. -/
theorem C1_mean_invariant_witness :
    lookupAgg (insertMessagePure (humorMsg (4/5)) (insertAll [] emptyDB)).category_sentiment "humor"
      = some (avgBy SentRow.category "humor"
          (insertMessagePure (humorMsg (4/5)) (insertAll [] emptyDB)).sentiment_messages) ∧
    lookupAgg (insertMessagePure (humorMsg (4/5)) (insertAll [] emptyDB)).author_sentiment "Charlie"
      = some (avgBy SentRow.author "Charlie"
          (insertMessagePure (humorMsg (4/5)) (insertAll [] emptyDB)).sentiment_messages) :=
  C1_mean_invariant.1 [] (humorMsg (4/5))
    ⟨some "humor", some "Charlie", 4/5, some "2025-01-29 14:35:20", some "m", some "meme", 42⟩
    "humor" "Charlie" rfl rfl rfl

/-- C2: `is_fraudulent` returns True exactly when at least one of the
four rules holds (a pure disjunction, so the fixed evaluation order is
irrelevant); the three concrete scenario transactions classify as
FRAUD, LEGIT, FRAUD. -/
theorem C2_fraud_disjunction :
    (∀ t : ProcTx, is_fraudulent t = true ↔
      (t.amount > 900 ∨
       (t.purchase_location ≠ t.home_location ∧ t.amount > 500) ∨
       ((t.merchant = some "Online Shopping" ∨ t.merchant = some "Retail Store") ∧
         t.amount > 700) ∨
       (t.type = some "Debit" ∧ t.amount > 800))) ∧
    is_fraudulent tx950 = true ∧ is_fraudulent tx600 = false ∧
    is_fraudulent tx750 = true :=
  ⟨is_fraudulent_iff, by decide, by decide, by decide⟩

/-- C7: `is_fraudulent` is monotonic in the amount, all other fields
fixed: raising the amount of a FRAUD transaction keeps it FRAUD. -/
theorem C7_monotonic_in_amount (t : ProcTx) (q : ℚ) (hle : t.amount ≤ q)
    (hf : is_fraudulent t = true) :
    is_fraudulent { t with amount := q } = true := by
  rw [is_fraudulent_iff] at hf ⊢
  rcases hf with h | ⟨hl, h⟩ | ⟨hm, h⟩ | ⟨hd, h⟩
  · exact Or.inl (lt_of_lt_of_le h hle)
  · exact Or.inr (Or.inl ⟨hl, lt_of_lt_of_le h hle⟩)
  · exact Or.inr (Or.inr (Or.inl ⟨hm, lt_of_lt_of_le h hle⟩))
  · exact Or.inr (Or.inr (Or.inr ⟨hd, lt_of_lt_of_le h hle⟩))

/-- Witness for C7: raising the scenario-2 amount from 950 to 1000. -/
theorem C7_monotonic_in_amount_witness :
    is_fraudulent { tx950 with amount := 1000 } = true :=
  C7_monotonic_in_amount tx950 1000 (by decide) (by decide)

/-- C10: every transaction with amount at most 500 is LEGIT whatever its
other fields, and each rule's comparison is strict: an amount sitting
exactly on a rule's threshold (900, 700, 800, 500) does not fire it. -/
theorem C10_amount_at_most_500_legit :
    (∀ t : ProcTx, t.amount ≤ 500 → is_fraudulent t = false) ∧
    is_fraudulent txBound900 = false ∧ is_fraudulent txBound700 = false ∧
    is_fraudulent txBound800 = false ∧ is_fraudulent txBound500 = false := by
  refine ⟨?_, by decide, by decide, by decide, by decide⟩
  intro t h
  cases hb : is_fraudulent t with
  | false => rfl
  | true =>
    exfalso
    rcases (is_fraudulent_iff t).mp hb with h1 | ⟨_, h2⟩ | ⟨_, h3⟩ | ⟨_, h4⟩ <;> linarith

/-- Witness for C10: the fully armed boundary transaction at amount 500. -/
theorem C10_amount_at_most_500_legit_witness :
    is_fraudulent txBound500 = false :=
  C10_amount_at_most_500_legit.1 txBound500 (by decide)

/-- C3 counterexample: in the transaction variant the partition insert
and the raw insert run in two separate transactions; if the raw insert
fails after a successful `insert_fraud`, the record is present in
`is_fraud` and absent from `transactions`. -/
theorem C3_counterexample :
    (perRecordWrite tx950 emptyTxDB false true).is_fraud = [tx950] ∧
    (perRecordWrite tx950 emptyTxDB false true).transactions = [] := by
  decide

/-- C3 amended: atomicity holds per store-function call.  The sentiment
variant's `insert_message` commits its four writes together or rolls all
of them back (a failure at any step leaves the store untouched), and each
transaction-variant insert is individually all-or-nothing; but the
transaction variant's partition and raw appends are separate calls. -/
theorem C3_amended_atomic_per_call :
    (∀ (m : MsgDict) (db : FullDB) (f : FailAt),
        (insert_message_call m db (some f)).db = db) ∧
    (∀ (m : MsgDict) (db : FullDB),
        (insert_message_call m db none).db = insertMessagePure m db) ∧
    (∀ (t : ProcTx) (db : TxDB), insertFraudCall t db true = db) ∧
    (∀ (t : ProcTx) (db : TxDB), insertTxCall t db true = db) ∧
    (∀ (t : ProcTx) (db : TxDB), insertLegitCall t db true = db) := by
  refine ⟨?_, ?_, ?_, ?_, ?_⟩
  · intro m db f
    cases he : extract m <;> simp [insert_message_call, he]
  · intro m db
    cases he : extract m <;> simp [insert_message_call, insertMessagePure, he]
  · intro t db; simp [insertFraudCall]
  · intro t db; simp [insertTxCall]
  · intro t db; simp [insertLegitCall]

/-- C4 counterexample: in the transaction consumer, the malformed second
payload terminates consumption — the loop raises out of its handler and
the third payload is never processed. -/
theorem C4_counterexample :
    isErr (consumeTx [rawTxGood, rawTxBad, rawTxGood2] emptyTxDB) = true ∧
    (txResultDB (consumeTx [rawTxGood, rawTxBad, rawTxGood2] emptyTxDB)).transactions.length
      = 1 := by
  decide

/-- C4 amended: the sentiment consumer catches a per-item failure inside
`process_message` and proceeds to the next item, but in the transaction
consumer a payload that fails to decode makes `is_fraudulent(None)` raise
and the loop's handler re-raises, terminating consumption. -/
theorem C4_amended_loop_behavior :
    (∀ (r : RawMsg) (rest : List RawMsg) (db : FullDB),
        processMsg r = none → sentLoop (r :: rest) db = sentLoop rest db) ∧
    (∀ (r : RawMsg) (rest : List RawMsg) (db : FullDB) (p : ProcMsg),
        processMsg r = some p →
        sentLoop (r :: rest) db = sentLoop rest (insertMessagePure (procToDict p) db)) ∧
    (∀ (r : RawTx) (rest : List RawTx) (db : TxDB),
        processTx r = none → consumeTx (r :: rest) db = Except.error db) := by
  refine ⟨?_, ?_, ?_⟩
  · intro r rest db h; simp [sentLoop, sentStep, h]
  · intro r rest db p h; simp [sentLoop, sentStep, h]
  · intro r rest db h; simp [consumeTx, h]

/-- Witness for C4 amended: a dropped malformed social message versus a
terminating malformed transaction. -/
theorem C4_amended_loop_behavior_witness :
    sentLoop [rawBadSent] emptyDB = sentLoop [] emptyDB ∧
    consumeTx [rawTxBad] emptyTxDB = Except.error emptyTxDB :=
  ⟨C4_amended_loop_behavior.1 rawBadSent [] emptyDB rfl,
   C4_amended_loop_behavior.2.2 rawTxBad [] emptyTxDB rfl⟩

/-- C5 counterexample: decoding a payload with every field missing gives
a record whose category and author are None — not "unknown" and
"anonymous" — and a payload whose sentiment cannot be coerced is dropped
(decode yields nothing and nothing is inserted), not kept. -/
theorem C5_counterexample :
    (processMsg rawAllAbsent).map ProcMsg.category = some none ∧
    (processMsg rawAllAbsent).map ProcMsg.author = some none ∧
    processMsg rawBadSent = none := by
  decide

/-- C5 amended: decode never raises (every exception is caught); a
missing sentiment becomes 0.0 and a missing message_length becomes 0,
while missing text fields become None (the "unknown"/"anonymous"/""
defaults live in the store layer and apply only to keys absent from the
dictionary); a record with an uncoercible numeric field is dropped, not
kept.  The transaction decoder behaves likewise with amount and location
defaults 0. -/
theorem C5_amended_decode_defaults :
    (∀ r : RawMsg, r.sentiment = NVal.absent → r.message_length = NVal.absent →
        processMsg r = some ⟨tvalOpt r.message, tvalOpt r.author, tvalOpt r.timestamp,
          tvalOpt r.category, tvalOpt r.keyword_mentioned, 0, 0⟩) ∧
    (∀ r : RawMsg, r.sentiment = NVal.bad → processMsg r = none) ∧
    (∀ (t : RawTx) (p h : ℤ), t.amount = NVal.absent →
        t.purchase_location = NVal.val p → t.home_location = NVal.val h →
        processTx t = some ⟨tvalOpt t.name, tvalOpt t.merchant, 0, p, h,
          tvalOpt t.type, tvalOpt t.timestamp⟩) ∧
    (∀ t : RawTx, t.amount = NVal.bad → processTx t = none) := by
  refine ⟨?_, ?_, ?_, ?_⟩
  · intro r hs hl; simp [processMsg, hs, hl, nvalF]
  · intro r hs; simp [processMsg, hs, nvalF]
  · intro t p h ha hp hh; simp [processTx, ha, hp, hh, nvalF]
  · intro t ha; simp [processTx, ha, nvalF]

/-- Witness for C5 amended: the all-absent payload decodes to the
all-defaults record; the uncoercible-sentiment payload is dropped. -/
theorem C5_amended_decode_defaults_witness :
    processMsg rawAllAbsent = some ⟨tvalOpt rawAllAbsent.message, tvalOpt rawAllAbsent.author,
      tvalOpt rawAllAbsent.timestamp, tvalOpt rawAllAbsent.category,
      tvalOpt rawAllAbsent.keyword_mentioned, 0, 0⟩ ∧
    processMsg rawBadSent = none :=
  ⟨C5_amended_decode_defaults.1 rawAllAbsent rfl rfl,
   C5_amended_decode_defaults.2.1 rawBadSent rfl⟩

/-- C6 counterexample: the sentiment variant's `init_db` drops only
`streamed_messages`; a leftover `sentiment_messages` row survives the
call, so the store is not empty afterwards. -/
theorem C6_counterexample :
    (init_db_sent staleSentStore).sentiment_messages
      = some [⟨some "humor", some "Charlie", 1, some "t"⟩] ∧
    (init_db_sent staleSentStore).sentiment_messages ≠ some [] ∧
    (init_db_sent staleSentStore).category_sentiment ≠ some [] := by
  decide

/-- C6 amended: both `init_db`s are idempotent and leave every table of
their schema existing, and the transaction variant recreates all of its
tables empty from any prior state; but the sentiment variant empties only
`streamed_messages` — prior rows of `sentiment_messages`,
`category_sentiment` and `author_sentiment` survive. -/
theorem C6_amended_init_db :
    (∀ s : SentStore, init_db_sent (init_db_sent s) = init_db_sent s) ∧
    (∀ s : SentStore, (init_db_sent s).streamed_messages = some [] ∧
        (init_db_sent s).sentiment_messages.isSome = true ∧
        (init_db_sent s).category_sentiment.isSome = true ∧
        (init_db_sent s).author_sentiment.isSome = true) ∧
    (∀ s : TxStore, init_db_tx s = ⟨some [], some [], some []⟩) ∧
    (∀ s : TxStore, init_db_tx (init_db_tx s) = init_db_tx s) := by
  refine ⟨?_, ?_, ?_, ?_⟩
  · intro s; simp [init_db_sent]
  · intro s; simp [init_db_sent]
  · intro s; simp [init_db_tx]
  · intro s; simp [init_db_tx]

/-- C8 counterexample: a failed `insert_message` call returns exactly
what a successful one returns (None, no exception), even though the two
calls leave different stores — the caller cannot tell them apart. -/
theorem C8_counterexample :
    (insert_message_call (humorMsg 1) emptyDB (some FailAt.rawInsert)).ret = none ∧
    (insert_message_call (humorMsg 1) emptyDB none).ret = none ∧
    (insert_message_call (humorMsg 1) emptyDB (some FailAt.rawInsert)).db ≠
      (insert_message_call (humorMsg 1) emptyDB none).db := by
  decide

/-- C8 amended: the store function swallows its failures: every call
returns None to the caller whether or not the write path failed; a failed
call leaves the store unchanged and only logs — the failure is observable
through the log stream and the store state, not at the call boundary. -/
theorem C8_amended_swallowed_failures :
    (∀ (m : MsgDict) (db : FullDB) (f : Option FailAt),
        (insert_message_call m db f).ret = none) ∧
    (∀ (m : MsgDict) (db : FullDB) (f : FailAt),
        (insert_message_call m db (some f)).db = db ∧
        (insert_message_call m db (some f)).loggedError = true) := by
  constructor
  · intro m db f
    cases he : extract m <;> cases f <;> simp [insert_message_call, he]
  · intro m db f
    cases he : extract m <;> simp [insert_message_call, he]

/-- C9 counterexample: with every startup step healthy except schema
creation, the process sails past STEP 3 and keeps running — it does not
exit with code 3 (nor any code): `init_db` swallowed the failure. -/
theorem C9_counterexample :
    mainStartup schemaFailEnv = Outcome.running ∧
    Outcome.running ≠ Outcome.exited 3 := by
  decide

/-- C9 amended: the startup failure classes that can fire exit with
distinct codes — config unreadable 1, store file unremovable 2, stream
verification or consumer creation 11, topic unavailable 13 — but a
schema-creation failure is caught inside `init_db` and never reaches the
`exit(3)` handler: startup continues regardless of it. -/
theorem C9_amended_exit_codes :
    (∀ e : StartupEnv, e.envOk = false → mainStartup e = Outcome.exited 1) ∧
    (∀ e : StartupEnv, e.envOk = true → e.priorDbExists = true → e.unlinkOk = false →
        mainStartup e = Outcome.exited 2) ∧
    (∀ e : StartupEnv, e.envOk = true → (e.priorDbExists = false ∨ e.unlinkOk = true) →
        e.verifyOk = false → mainStartup e = Outcome.exited 11) ∧
    (∀ e : StartupEnv, e.envOk = true → (e.priorDbExists = false ∨ e.unlinkOk = true) →
        e.verifyOk = true → e.consumerOk = true → e.topicOk = false →
        mainStartup e = Outcome.exited 13) ∧
    (∀ e : StartupEnv, e.envOk = true → (e.priorDbExists = false ∨ e.unlinkOk = true) →
        e.verifyOk = true → e.consumerOk = true → e.topicOk = true →
        mainStartup e = Outcome.running) := by
  refine ⟨?_, ?_, ?_, ?_, ?_⟩
  · intro e h; simp [mainStartup, h]
  · intro e h1 h2 h3; simp [mainStartup, h1, h2, h3]
  · intro e h1 h2 h3
    rcases h2 with h2 | h2 <;> simp [mainStartup, h1, h2, h3]
  · intro e h1 h2 h3 h4 h5
    rcases h2 with h2 | h2 <;> simp [mainStartup, h1, h2, h3, h4, h5]
  · intro e h1 h2 h3 h4 h5
    rcases h2 with h2 | h2 <;> simp [mainStartup, h1, h2, h3, h4, h5]

/-- Witness for C9 amended: a config failure exits 1; a schema failure
with an existing (removable) prior store leaves the process running. -/
theorem C9_amended_exit_codes_witness :
    mainStartup ⟨false, false, true, true, true, true, true⟩ = Outcome.exited 1 ∧
    mainStartup ⟨true, true, true, false, true, true, true⟩ = Outcome.running :=
  ⟨C9_amended_exit_codes.1 ⟨false, false, true, true, true, true, true⟩ rfl,
   C9_amended_exit_codes.2.2.2.2 ⟨true, true, true, false, true, true, true⟩ rfl
     (Or.inr rfl) rfl rfl rfl⟩
